import Mathlib

set_option maxRecDepth 100000

/-!
Verification development for scripts/init_harness.py, a one-shot generator
that creates the files feature_list.json, progress.txt and init.sh inside
long_running/<feature_name> under a project directory.

The embedding models the filesystem as a set of directories plus a map from
paths to files, and the process run as a pure function of
  - a failure model saying which filesystem actions the operating system
    refuses (each uncaught OSError terminates the Python process with a
    non-zero status),
  - the working directory,
  - a clock giving the value of each successive datetime.now() call
    (timestamps are opaque strings; the isoformat and strftime renderings
    are absorbed into the sampled value),
  - the initial filesystem, and
  - the positional command-line arguments.
-/

/-- An absolute filesystem path, modelled as its list of segments from the
root. -/
abbrev FsPath := List String

/-- Split a character list at every slash (the groups between slashes, in
order; empty groups are kept here). -/
def splitSlashes : List Char → List (List Char)
  | [] => [[]]
  | c :: rest =>
    match splitSlashes rest with
    | [] => [[c]]
    | g :: gs => if c = '/' then [] :: g :: gs else (c :: g) :: gs

/-- Split a path string into segments, dropping empty and single-dot
components the way pathlib does when parsing path strings. -/
def segsOf (s : String) : List String :=
  ((splitSlashes s.data).map (fun g => String.mk g)).filter
    (fun c => !(c == "" || c == "."))

/-- Whether a path string is absolute (starts with a slash). -/
def isAbsolute (s : String) : Bool :=
  match s.data with
  | [] => false
  | c :: _ => c = '/'

/-- Left-to-right lexical resolution of dot-dot components: a dot-dot pops
the previous segment (staying at the root when there is none), any other
segment is appended. -/
def normAux : List String → List String → List String
  | acc, [] => acc
  | acc, c :: rest => normAux (if c = ".." then acc.dropLast else acc ++ [c]) rest

/-- Lexical normalisation of a segment list, resolving dot-dot components
the way the operating system resolves them during mkdir and open. -/
def normSegs (l : List String) : List String := normAux [] l

/-- Python Path(arg).resolve(): an absolute argument stands on its own, a
relative one is joined to the working directory; the result is normalised.
Symbolic links are not modelled. -/
def resolvePath (cwd : FsPath) (s : String) : FsPath :=
  if isAbsolute s then normSegs (segsOf s) else normSegs (cwd ++ segsOf s)

/-- Python pathlib slash operator: an absolute right operand replaces the
path, otherwise its segments are appended.  Dot-dot components are kept, as
pathlib keeps them. -/
def joinPath (p : FsPath) (s : String) : FsPath :=
  if isAbsolute s then segsOf s else p ++ segsOf s

/-- Python Path.name: the final path segment (empty for the root). -/
def pathName (p : FsPath) : String := p.getLast?.getD ""

/-- Join strings with a separator. -/
def joinWith (sep : String) : List String → String
  | [] => ""
  | [x] => x
  | x :: y :: rest => x ++ sep ++ joinWith sep (y :: rest)

/-- Render a path inside a printed message. -/
def showPath (p : FsPath) : String := "/" ++ joinWith "/" p

/-- All lexical ancestors of a path, including the root and the path
itself. -/
def prefixesOf (p : FsPath) : List FsPath :=
  (List.range (p.length + 1)).map (fun n => p.take n)

/-- One feature record of feature_list.json (init_harness.py lines 31-53). -/
structure Feature where
  id : Nat
  category : String
  description : String
  steps : List String
  priority : String
  passes : Bool
deriving DecidableEq

/-- The project block of feature_list.json (lines 25-29). -/
structure ProjectInfo where
  name : String
  description : String
  created : String
deriving DecidableEq

/-- The metadata block of feature_list.json (lines 55-59). -/
structure FeatureMetadata where
  total_features : Nat
  completed_features : Nat
  last_updated : String
deriving DecidableEq

/-- The whole document written to feature_list.json (lines 24-60). -/
structure FeatureList where
  project : ProjectInfo
  features : List Feature
  metadata : FeatureMetadata
deriving DecidableEq

/-- The dictionary built by create_feature_list (init_harness.py lines
24-60).  The values of its two datetime.now() calls are passed in as
tsCreated (line 28) and tsUpdated (line 58). -/
def featureListValue (project_name description tsCreated tsUpdated : String) :
    FeatureList :=
  { project :=
      { name := project_name
        description := description
        created := tsCreated }
    features :=
      [{ id := 1
         category := "setup"
         description := "Project initialization and basic structure"
         steps := ["Create project directory structure",
                   "Initialize package management",
                   "Verify basic setup works"]
         priority := "high"
         passes := false },
       { id := 2
         category := "core"
         description := "[TODO: Add core feature description]"
         steps := ["[TODO: Add verification step 1]",
                   "[TODO: Add verification step 2]"]
         priority := "high"
         passes := false }]
    metadata :=
      { total_features := 2
        completed_features := 0
        last_updated := tsUpdated } }

/-- The opening line of the Notes block of progress.txt (lines 97-99). -/
def notesIntro : String :=
  "## Notes for Future Sessions\n\nWhen starting a new session:\n"

/-- The six checklist entries of the Notes block (lines 100-105). -/
def progressNotesSteps : List String :=
  ["Read this file to understand recent progress",
   "Check git log for commit history",
   "Review feature_list.json for next task",
   "Run ./init.sh to start development environment",
   "Pick ONE feature and implement it",
   "Update this file before ending session"]

/-- Decimal digits of a number, most significant first; the first argument
is recursion fuel. -/
def natDigitsAux : Nat → Nat → List Char
  | 0, _ => []
  | fuel + 1, n =>
    if n < 10 then [Char.ofNat (48 + n)]
    else natDigitsAux fuel (n / 10) ++ [Char.ofNat (48 + n % 10)]

/-- Decimal rendering of a number. -/
def natStr (n : Nat) : String := String.mk (natDigitsAux (n + 1) n)

/-- Render a numbered list starting at the given number, one line per
item. -/
def numberedFrom : Nat → List String → String
  | _, [] => ""
  | n, s :: rest => natStr n ++ ". " ++ s ++ "\n" ++ numberedFrom (n + 1) rest

/-- The fixed tail of progress.txt, from the Notes heading to the end of the
file (init_harness.py lines 97-107). -/
def notesSection : String :=
  "## Notes for Future Sessions\n\nWhen starting a new session:\n1. Read this file to understand recent progress\n2. Check git log for commit history\n3. Review feature_list.json for next task\n4. Run ./init.sh to start development environment\n5. Pick ONE feature and implement it\n6. Update this file before ending session\n\n"

/-- The f-string written by create_progress_file (init_harness.py lines
71-107), split at its interpolation holes.  The values of its two
datetime.now() calls are tsCreated (line 75) and tsSession (line 79). -/
def progressContent (project_name description tsCreated tsSession : String) :
    String :=
  "# Project Progress Log\n\n## Project: " ++ project_name ++
  "\n**Description:** " ++ description ++
  "\n**Created:** " ++ tsCreated ++
  "\n\n---\n\n## Session: " ++ tsSession ++
  " (Initialization)\n\n### What was done:\n- Initialized project harness\n- Created feature_list.json with initial feature requirements\n- Created progress.txt for session tracking\n- Created init.sh for environment setup\n\n### Current State:\n- Project is ready for development\n- Feature list needs to be expanded based on requirements\n\n### Next Steps:\n- Review and expand feature_list.json with all required features\n- Implement the first feature from the list\n\n---\n\n" ++
  notesSection

/-- The static string written to init.sh by create_init_script
(init_harness.py lines 118-169).  No argument is interpolated into it. -/
def initShContent : String :=
  "#!/bin/bash\n" ++
  "# Development Environment Initialization Script\n" ++
  "# Run this at the start of each coding session\n" ++
  "\n" ++
  "set -e\n" ++
  "\n" ++
  "echo \"🚀 Starting development environment...\"\n" ++
  "\n" ++
  "# Resolve paths\n" ++
  "SCRIPT_DIR=\"$(cd \"$(dirname \"$0\")\" && pwd)\"\n" ++
  "PROJECT_ROOT=\"$(cd \"$SCRIPT_DIR/../..\" && pwd)\"\n" ++
  "\n" ++
  "# Navigate to project root\n" ++
  "cd \"$PROJECT_ROOT\"\n" ++
  "\n" ++
  "# Check for common package managers and install dependencies\n" ++
  "if [ -f \"package.json\" ]; then\n" ++
  "    echo \"📦 Installing Node.js dependencies...\"\n" ++
  "    npm install\n" ++
  "elif [ -f \"requirements.txt\" ]; then\n" ++
  "    echo \"🐍 Installing Python dependencies...\"\n" ++
  "    pip install -r requirements.txt\n" ++
  "elif [ -f \"Cargo.toml\" ]; then\n" ++
  "    echo \"🦀 Building Rust project...\"\n" ++
  "    cargo build\n" ++
  "elif [ -f \"go.mod\" ]; then\n" ++
  "    echo \"🐹 Installing Go dependencies...\"\n" ++
  "    go mod download\n" ++
  "fi\n" ++
  "\n" ++
  "# Start development server (customize based on your project)\n" ++
  "# Uncomment and modify the appropriate line:\n" ++
  "\n" ++
  "# Node.js\n" ++
  "# npm run dev &\n" ++
  "\n" ++
  "# Python Flask\n" ++
  "# python app.py &\n" ++
  "\n" ++
  "# Python Django\n" ++
  "# python manage.py runserver &\n" ++
  "\n" ++
  "# Go\n" ++
  "# go run main.go &\n" ++
  "\n" ++
  "echo \"✅ Development environment ready!\"\n" ++
  "echo \"\"\n" ++
  "echo \"📋 Quick commands:\"\n" ++
  "echo \"   - Check progress: cat $SCRIPT_DIR/progress.txt\"\n" ++
  "echo \"   - View features:  cat $SCRIPT_DIR/feature_list.json\"\n" ++
  "echo \"   - Git history:    git log --oneline -10\"\n"

/-- A stored file: its content and its permission mode.  feature_list.json
is stored as the structured value that json.dump serialises (the JSON
rendering itself is not modelled). -/
inductive FileContent where
  | jsonFL (fl : FeatureList)
  | text (s : String)
deriving DecidableEq

/-- Content and permission mode of a file on disk. -/
structure FileData where
  content : FileContent
  mode : Nat
deriving DecidableEq

/-- Filesystem state: the existing directories and a map from paths to
files. -/
structure FS where
  dirs : List FsPath
  files : FsPath → Option FileData

/-- The empty filesystem. -/
def FS.empty : FS := { dirs := [], files := fun _ => none }

/-- Look a file up. -/
def FS.getFile (fs : FS) (p : FsPath) : Option FileData := fs.files p

/-- Python open(path, "w") followed by a write: truncate or create.  An
existing file keeps its permission mode; a new one is created with mode
0o644 (umask 022 assumed). -/
def FS.writeFile (fs : FS) (p : FsPath) (c : FileContent) : FS :=
  { fs with
    files := fun q =>
      if q = p then
        some { content := c, mode := ((fs.files p).map FileData.mode).getD 0o644 }
      else fs.files q }

/-- Python os.chmod on a path. -/
def FS.chmodFile (fs : FS) (p : FsPath) (m : Nat) : FS :=
  { fs with
    files := fun q =>
      if q = p then (fs.files p).map (fun fd => { content := fd.content, mode := m })
      else fs.files q }

/-- Python mkdir(parents=True): every lexical ancestor of the path is
created, each normalised by the operating system before creation. -/
def FS.mkdirParents (fs : FS) (p : FsPath) : FS :=
  { fs with dirs := (prefixesOf p).map normSegs ++ fs.dirs }

/-- Filesystem actions the operating system may refuse. -/
inductive FSOp where
  | mkdirOp (p : FsPath)
  | writeOp (p : FsPath)
  | chmodOp (p : FsPath)
deriving DecidableEq

/-- A failure model: which filesystem actions the operating system
refuses. -/
abbrev FailModel := FSOp → Bool

/-- The failure model of a run in which every filesystem action succeeds. -/
def noFailure : FailModel := fun _ => false

/-- The failure model in which exactly the write to the given path fails. -/
def failWrite (target : FsPath) : FailModel
  | FSOp.writeOp q => decide (q = target)
  | _ => false

/-- The failure model in which exactly the chmod of the given path fails. -/
def failChmod (target : FsPath) : FailModel
  | FSOp.chmodOp q => decide (q = target)
  | _ => false

/-- Outcome of one process run: exit status, final filesystem, and the lines
printed to standard output. -/
structure RunResult where
  exitCode : Nat
  fs : FS
  output : List String

/-- The harness directory as pathlib builds it (init_harness.py line 204),
dot-dot components included. -/
def harnessDirLex (project_path : FsPath) (feature_name : String) : FsPath :=
  joinPath (joinPath project_path "long_running") feature_name

/-- The harness directory as the operating system resolves it. -/
def harnessDirOf (project_path : FsPath) (feature_name : String) : FsPath :=
  normSegs (harnessDirLex project_path feature_name)

/-- Path of feature_list.json inside the harness directory (line 62). -/
def featureListPath (harness_dir : FsPath) : FsPath :=
  harness_dir ++ ["feature_list.json"]

/-- Path of progress.txt inside the harness directory (line 109). -/
def progressPath (harness_dir : FsPath) : FsPath :=
  harness_dir ++ ["progress.txt"]

/-- Path of init.sh inside the harness directory (line 171). -/
def initShPath (harness_dir : FsPath) : FsPath :=
  harness_dir ++ ["init.sh"]

/-- main from the harness-directory mkdir (init_harness.py line 211) to the
end (line 226), given the filesystem and the messages produced by the
project-directory step.  Each filesystem action the failure model refuses
raises an uncaught OSError: the process stops there with exit status 1 and
whatever the filesystem already committed stays. -/
def runRest (env : FailModel) (clock : Nat → String) (fs : FS)
    (out : List String) (project_path : FsPath)
    (feature_name description : String) : RunResult :=
  let harness_lex := harnessDirLex project_path feature_name
  let harness_dir := harnessDirOf project_path feature_name
  let project_name := pathName project_path
  if env (FSOp.mkdirOp harness_dir) then
    { exitCode := 1, fs := fs, output := out }
  else
    let fs1 := fs.mkdirParents harness_lex
    let out1 := out ++
      ["\n🔧 Initializing harness for: " ++ project_name,
       "   Description: " ++ description ++ "\n"]
    if env (FSOp.writeOp (featureListPath harness_dir)) then
      { exitCode := 1, fs := fs1, output := out1 }
    else
      let fs2 := fs1.writeFile (featureListPath harness_dir)
        (FileContent.jsonFL
          (featureListValue project_name description (clock 0) (clock 1)))
      let out2 := out1 ++ ["✅ Created " ++ showPath (featureListPath harness_dir)]
      if env (FSOp.writeOp (progressPath harness_dir)) then
        { exitCode := 1, fs := fs2, output := out2 }
      else
        let fs3 := fs2.writeFile (progressPath harness_dir)
          (FileContent.text
            (progressContent project_name description (clock 2) (clock 3)))
        let out3 := out2 ++ ["✅ Created " ++ showPath (progressPath harness_dir)]
        if env (FSOp.writeOp (initShPath harness_dir)) then
          { exitCode := 1, fs := fs3, output := out3 }
        else
          let fs4 := fs3.writeFile (initShPath harness_dir)
            (FileContent.text initShContent)
          if env (FSOp.chmodOp (initShPath harness_dir)) then
            { exitCode := 1, fs := fs4, output := out3 }
          else
            let fs5 := fs4.chmodFile (initShPath harness_dir) 0o755
            let out4 := out3 ++
              ["✅ Created " ++ showPath (initShPath harness_dir),
               "\n✅ Harness initialization complete!",
               "\nNext steps:",
               "  1. cd " ++ showPath project_path,
               "  2. Edit long_running/" ++ feature_name ++
                 "/feature_list.json to add your features",
               "  3. git init && git add . && git commit -m \x27Initial setup\x27",
               "  4. Start implementing features one at a time"]
            { exitCode := 0, fs := fs5, output := out4 }

/-- main of init_harness.py (lines 181-226).  argv holds the positional
command-line arguments; argparse stops the process with exit status 2 before
any filesystem action unless exactly three are given.  clock yields the
value of each successive datetime.now() call. -/
def runMain (env : FailModel) (cwd : FsPath) (clock : Nat → String) (fs0 : FS)
    (argv : List String) : RunResult :=
  match argv with
  | [projectArg, featureArg, descriptionArg] =>
    let project_path := resolvePath cwd projectArg
    if project_path ∈ fs0.dirs then
      runRest env clock fs0 [] project_path featureArg descriptionArg
    else if env (FSOp.mkdirOp project_path) then
      { exitCode := 1, fs := fs0, output := [] }
    else
      runRest env clock (fs0.mkdirParents project_path)
        ["📁 Created project directory: " ++ showPath project_path]
        project_path featureArg descriptionArg
  | _ => { exitCode := 2, fs := fs0, output := [] }

/-- The four dependency manifests the generated init.sh checks for. -/
inductive Manifest where
  | packageJson | requirementsTxt | cargoToml | goMod
deriving DecidableEq

/-- The four dependency-install commands the generated init.sh may run. -/
inductive InstallCmd where
  | npmInstall | pipInstall | cargoBuild | goModDownload
deriving DecidableEq

/-- Which manifests exist in the project root when init.sh runs. -/
structure ManifestFlags where
  packageJson : Bool
  requirementsTxt : Bool
  cargoToml : Bool
  goMod : Bool
deriving DecidableEq

/-- Whether a given manifest file is present. -/
def manifestPresent (m : ManifestFlags) : Manifest → Bool
  | Manifest.packageJson => m.packageJson
  | Manifest.requirementsTxt => m.requirementsTxt
  | Manifest.cargoToml => m.cargoToml
  | Manifest.goMod => m.goMod

/-- The install command belonging to each manifest, as in the template. -/
def installFor : Manifest → InstallCmd
  | Manifest.packageJson => InstallCmd.npmInstall
  | Manifest.requirementsTxt => InstallCmd.pipInstall
  | Manifest.cargoToml => InstallCmd.cargoBuild
  | Manifest.goMod => InstallCmd.goModDownload

/-- Shell semantics of the if/elif ladder in the init.sh template
(init_harness.py lines 134-146): the dependency-install command the
generated script runs, if any. -/
def initScriptDetect (m : ManifestFlags) : Option InstallCmd :=
  if m.packageJson then some InstallCmd.npmInstall
  else if m.requirementsTxt then some InstallCmd.pipInstall
  else if m.cargoToml then some InstallCmd.cargoBuild
  else if m.goMod then some InstallCmd.goModDownload
  else none

/-- The priority order of the checks in the template. -/
def manifestOrder : List Manifest :=
  [Manifest.packageJson, Manifest.requirementsTxt,
   Manifest.cargoToml, Manifest.goMod]

/-! Lemmas about lexical path normalisation. -/

theorem normAux_no_dd : ∀ (l acc : List String), ".." ∉ acc → ".." ∉ normAux acc l := by
  intro l
  induction l with
  | nil => exact fun acc h => h
  | cons c rest ih =>
    intro acc h
    by_cases hc : c = ".."
    · simp only [normAux, if_pos hc]
      exact ih _ (fun hm => h (List.dropLast_subset _ hm))
    · simp only [normAux, if_neg hc]
      refine ih _ ?_
      intro hm
      rcases List.mem_append.mp hm with h1 | h2
      · exact h h1
      · exact hc (List.mem_singleton.mp h2).symm

theorem normAux_of_no_dd : ∀ (l acc : List String), ".." ∉ l → normAux acc l = acc ++ l := by
  intro l
  induction l with
  | nil => intro acc _; simp [normAux]
  | cons c rest ih =>
    intro acc h
    have hc : c ≠ ".." := fun e => h (by simp [e])
    have hr : ".." ∉ rest := fun hm => h (List.mem_cons_of_mem _ hm)
    simp only [normAux, if_neg hc]
    rw [ih _ hr]
    simp

theorem normSegs_of_no_dd (l : List String) (h : ".." ∉ l) : normSegs l = l := by
  simpa [normSegs] using normAux_of_no_dd l [] h

theorem no_dd_normSegs (l : List String) : ".." ∉ normSegs l :=
  normAux_no_dd l [] (by simp)

theorem normSegs_idem (l : List String) : normSegs (normSegs l) = normSegs l :=
  normSegs_of_no_dd _ (no_dd_normSegs l)

theorem normAux_append : ∀ (l₁ l₂ acc : List String),
    normAux acc (l₁ ++ l₂) = normAux (normAux acc l₁) l₂ := by
  intro l₁
  induction l₁ with
  | nil => intro l₂ acc; simp [normAux]
  | cons c rest ih =>
    intro l₂ acc
    simp only [List.cons_append, normAux]
    exact ih _ _

theorem normSegs_append_single (l : List String) (c : String) (hc : c ≠ "..") :
    normSegs (l ++ [c]) = normSegs l ++ [c] := by
  rw [normSegs, normAux_append]
  simp [normAux, if_neg hc, normSegs]

theorem resolvePath_norm (cwd : FsPath) (s : String) :
    normSegs (resolvePath cwd s) = resolvePath cwd s := by
  unfold resolvePath
  split <;> exact normSegs_idem _

/-! Lemmas about the filesystem model. -/

theorem FS.getFile_writeFile_self (fs : FS) (p : FsPath) (c : FileContent) :
    (fs.writeFile p c).getFile p =
      some { content := c, mode := ((fs.getFile p).map FileData.mode).getD 0o644 } := by
  simp [FS.writeFile, FS.getFile]

theorem FS.getFile_writeFile_ne (fs : FS) {p q : FsPath} (c : FileContent) (h : q ≠ p) :
    (fs.writeFile p c).getFile q = fs.getFile q := by
  simp [FS.writeFile, FS.getFile, h]

theorem FS.getFile_chmodFile_self (fs : FS) (p : FsPath) (m : Nat) :
    (fs.chmodFile p m).getFile p =
      (fs.getFile p).map (fun fd => { content := fd.content, mode := m }) := by
  simp [FS.chmodFile, FS.getFile]

theorem FS.getFile_chmodFile_ne (fs : FS) {p q : FsPath} (m : Nat) (h : q ≠ p) :
    (fs.chmodFile p m).getFile q = fs.getFile q := by
  simp [FS.chmodFile, FS.getFile, h]

theorem FS.getFile_mkdirParents (fs : FS) (p q : FsPath) :
    (fs.mkdirParents p).getFile q = fs.getFile q := rfl

theorem FS.dirs_writeFile (fs : FS) (p : FsPath) (c : FileContent) :
    (fs.writeFile p c).dirs = fs.dirs := rfl

theorem FS.dirs_chmodFile (fs : FS) (p : FsPath) (m : Nat) :
    (fs.chmodFile p m).dirs = fs.dirs := rfl

theorem FS.self_mem_mkdirParents (fs : FS) (p : FsPath) :
    normSegs p ∈ (fs.mkdirParents p).dirs := by
  have hp : p ∈ prefixesOf p := by
    unfold prefixesOf
    exact List.mem_map.mpr ⟨p.length, List.mem_range.mpr (Nat.lt_succ_self _), List.take_length p⟩
  exact List.mem_append_left _ (List.mem_map_of_mem _ hp)

theorem FS.mem_dirs_mkdirParents (fs : FS) (p : FsPath) {q : FsPath} (h : q ∈ fs.dirs) :
    q ∈ (fs.mkdirParents p).dirs :=
  List.mem_append_right _ h

/-! Distinctness of the three file paths inside one harness directory. -/

theorem append_single_ne (h : FsPath) {a b : String} (hab : a ≠ b) :
    h ++ [a] ≠ h ++ [b] := by
  intro he
  have h2 := congrArg (fun l => List.drop h.length l) he
  simp only [List.drop_left] at h2
  injection h2 with h3 _
  exact hab h3

theorem featureListPath_ne_progressPath (h : FsPath) :
    featureListPath h ≠ progressPath h :=
  append_single_ne h (by decide)

theorem featureListPath_ne_initShPath (h : FsPath) :
    featureListPath h ≠ initShPath h :=
  append_single_ne h (by decide)

theorem progressPath_ne_initShPath (h : FsPath) :
    progressPath h ≠ initShPath h :=
  append_single_ne h (by decide)

/-! Closed form of a run in which every filesystem action succeeds. -/

theorem runRest_noFailure (clock : Nat → String) (fs : FS) (out : List String)
    (project : FsPath) (f d : String) :
    runRest noFailure clock fs out project f d =
      { exitCode := 0
        fs := ((((fs.mkdirParents (harnessDirLex project f)).writeFile
            (featureListPath (harnessDirOf project f))
            (FileContent.jsonFL
              (featureListValue (pathName project) d (clock 0) (clock 1)))).writeFile
            (progressPath (harnessDirOf project f))
            (FileContent.text
              (progressContent (pathName project) d (clock 2) (clock 3)))).writeFile
            (initShPath (harnessDirOf project f))
            (FileContent.text initShContent)).chmodFile
            (initShPath (harnessDirOf project f)) 0o755
        output := out ++
          ["\n🔧 Initializing harness for: " ++ pathName project,
           "   Description: " ++ d ++ "\n",
           "✅ Created " ++ showPath (featureListPath (harnessDirOf project f)),
           "✅ Created " ++ showPath (progressPath (harnessDirOf project f)),
           "✅ Created " ++ showPath (initShPath (harnessDirOf project f)),
           "\n✅ Harness initialization complete!",
           "\nNext steps:",
           "  1. cd " ++ showPath project,
           "  2. Edit long_running/" ++ f ++ "/feature_list.json to add your features",
           "  3. git init && git add . && git commit -m \x27Initial setup\x27",
           "  4. Start implementing features one at a time"] } := by
  simp [runRest, noFailure]

theorem runMain_noFailure_eq (cwd : FsPath) (clock : Nat → String) (fs0 : FS)
    (p f d : String) :
    runMain noFailure cwd clock fs0 [p, f, d] =
      if resolvePath cwd p ∈ fs0.dirs then
        runRest noFailure clock fs0 [] (resolvePath cwd p) f d
      else
        runRest noFailure clock (fs0.mkdirParents (resolvePath cwd p))
          ["📁 Created project directory: " ++ showPath (resolvePath cwd p)]
          (resolvePath cwd p) f d := by
  by_cases hp : resolvePath cwd p ∈ fs0.dirs <;> simp [runMain, noFailure, hp]

theorem runMain_ok_exit (cwd : FsPath) (clock : Nat → String) (fs0 : FS)
    (p f d : String) :
    (runMain noFailure cwd clock fs0 [p, f, d]).exitCode = 0 := by
  rw [runMain_noFailure_eq]
  by_cases hp : resolvePath cwd p ∈ fs0.dirs
  · rw [if_pos hp, runRest_noFailure]
  · rw [if_neg hp, runRest_noFailure]

theorem runRest_ok_fl (clock : Nat → String) (fs : FS) (out : List String)
    (project : FsPath) (f d : String) :
    (runRest noFailure clock fs out project f d).fs.getFile
        (featureListPath (harnessDirOf project f)) =
      some { content := FileContent.jsonFL
               (featureListValue (pathName project) d (clock 0) (clock 1))
             mode := ((fs.getFile (featureListPath (harnessDirOf project f))).map
               FileData.mode).getD 0o644 } := by
  rw [runRest_noFailure]
  have h1 := featureListPath_ne_progressPath (harnessDirOf project f)
  have h2 := featureListPath_ne_initShPath (harnessDirOf project f)
  simp [FS.getFile, FS.chmodFile, FS.writeFile, FS.mkdirParents, h1, h2]

theorem runRest_ok_pg (clock : Nat → String) (fs : FS) (out : List String)
    (project : FsPath) (f d : String) :
    (runRest noFailure clock fs out project f d).fs.getFile
        (progressPath (harnessDirOf project f)) =
      some { content := FileContent.text
               (progressContent (pathName project) d (clock 2) (clock 3))
             mode := ((fs.getFile (progressPath (harnessDirOf project f))).map
               FileData.mode).getD 0o644 } := by
  rw [runRest_noFailure]
  have h1 : progressPath (harnessDirOf project f) ≠ featureListPath (harnessDirOf project f) :=
    (featureListPath_ne_progressPath (harnessDirOf project f)).symm
  have h2 := progressPath_ne_initShPath (harnessDirOf project f)
  simp [FS.getFile, FS.chmodFile, FS.writeFile, FS.mkdirParents, h1, h2]

theorem runRest_ok_sh (clock : Nat → String) (fs : FS) (out : List String)
    (project : FsPath) (f d : String) :
    (runRest noFailure clock fs out project f d).fs.getFile
        (initShPath (harnessDirOf project f)) =
      some { content := FileContent.text initShContent, mode := 0o755 } := by
  rw [runRest_noFailure]
  simp [FS.getFile, FS.chmodFile, FS.writeFile, FS.mkdirParents]

theorem runMain_ok_fl (cwd : FsPath) (clock : Nat → String) (fs0 : FS)
    (p f d : String) :
    (runMain noFailure cwd clock fs0 [p, f, d]).fs.getFile
        (featureListPath (harnessDirOf (resolvePath cwd p) f)) =
      some { content := FileContent.jsonFL
               (featureListValue (pathName (resolvePath cwd p)) d (clock 0) (clock 1))
             mode := ((fs0.getFile (featureListPath (harnessDirOf (resolvePath cwd p) f))).map
               FileData.mode).getD 0o644 } := by
  rw [runMain_noFailure_eq]
  by_cases hp : resolvePath cwd p ∈ fs0.dirs
  · rw [if_pos hp, runRest_ok_fl]
  · rw [if_neg hp, runRest_ok_fl, FS.getFile_mkdirParents]

theorem runMain_ok_pg (cwd : FsPath) (clock : Nat → String) (fs0 : FS)
    (p f d : String) :
    (runMain noFailure cwd clock fs0 [p, f, d]).fs.getFile
        (progressPath (harnessDirOf (resolvePath cwd p) f)) =
      some { content := FileContent.text
               (progressContent (pathName (resolvePath cwd p)) d (clock 2) (clock 3))
             mode := ((fs0.getFile (progressPath (harnessDirOf (resolvePath cwd p) f))).map
               FileData.mode).getD 0o644 } := by
  rw [runMain_noFailure_eq]
  by_cases hp : resolvePath cwd p ∈ fs0.dirs
  · rw [if_pos hp, runRest_ok_pg]
  · rw [if_neg hp, runRest_ok_pg, FS.getFile_mkdirParents]

theorem runMain_ok_sh (cwd : FsPath) (clock : Nat → String) (fs0 : FS)
    (p f d : String) :
    (runMain noFailure cwd clock fs0 [p, f, d]).fs.getFile
        (initShPath (harnessDirOf (resolvePath cwd p) f)) =
      some { content := FileContent.text initShContent, mode := 0o755 } := by
  rw [runMain_noFailure_eq]
  by_cases hp : resolvePath cwd p ∈ fs0.dirs
  · rw [if_pos hp, runRest_ok_sh]
  · rw [if_neg hp, runRest_ok_sh]

/-! Claim theorems. -/

/-- C1: in every run in which the filesystem cooperates, the generated
feature_list.json holds a features sequence of length 2,
metadata.total_features equal to that length (2), metadata.completed_features
equal to 0, and both seeded features have passes false and priority high. -/
theorem seeded_feature_list_ok (cwd : FsPath) (clock : Nat → String) (fs0 : FS)
    (p f d : String) :
    ∃ fl mode,
      (runMain noFailure cwd clock fs0 [p, f, d]).fs.getFile
          (featureListPath (harnessDirOf (resolvePath cwd p) f)) =
        some { content := FileContent.jsonFL fl, mode := mode } ∧
      fl.features.length = 2 ∧
      fl.metadata.total_features = fl.features.length ∧
      fl.metadata.completed_features = 0 ∧
      ∀ ft ∈ fl.features, ft.passes = false ∧ ft.priority = "high" := by
  refine ⟨featureListValue (pathName (resolvePath cwd p)) d (clock 0) (clock 1),
    ((fs0.getFile (featureListPath (harnessDirOf (resolvePath cwd p) f))).map
      FileData.mode).getD 0o644, runMain_ok_fl cwd clock fs0 p f d, rfl, rfl, rfl, ?_⟩
  intro ft hft
  simp only [featureListValue, List.mem_cons, List.not_mem_nil, or_false] at hft
  rcases hft with rfl | rfl <;> exact ⟨rfl, rfl⟩

/-- C3: the content written to init.sh is the fixed template, independent of
the input arguments: two runs with different working directories, clocks,
initial filesystems, project paths, feature names and descriptions write the
same bytes, and the file mode is 0755. -/
theorem initsh_independent_of_args (cwd1 cwd2 : FsPath)
    (clock1 clock2 : Nat → String) (fsA fsB : FS) (p1 f1 d1 p2 f2 d2 : String) :
    (runMain noFailure cwd1 clock1 fsA [p1, f1, d1]).fs.getFile
        (initShPath (harnessDirOf (resolvePath cwd1 p1) f1)) =
      some { content := FileContent.text initShContent, mode := 0o755 } ∧
    (runMain noFailure cwd2 clock2 fsB [p2, f2, d2]).fs.getFile
        (initShPath (harnessDirOf (resolvePath cwd2 p2) f2)) =
      some { content := FileContent.text initShContent, mode := 0o755 } :=
  ⟨runMain_ok_sh cwd1 clock1 fsA p1 f1 d1, runMain_ok_sh cwd2 clock2 fsB p2 f2 d2⟩

/-- C6: the generated init.sh checks the four dependency manifests in the
fixed priority order package.json, requirements.txt, Cargo.toml, go.mod and
runs the install command of the first present manifest only, ignoring any
later matches. -/
theorem initsh_first_manifest_only :
    manifestOrder.length = 4 ∧
    ∀ m : ManifestFlags,
      initScriptDetect m = (manifestOrder.find? (manifestPresent m)).map installFor := by
  refine ⟨rfl, ?_⟩
  intro m
  obtain ⟨a, b, c, d⟩ := m
  cases a <;> cases b <;> cases c <;> cases d <;> rfl

/-- C7: invoked with a project path that does not exist, the tool creates it
and the harness subdirectory rather than failing, and reports the
project-directory creation. -/
theorem missing_project_path_created (cwd : FsPath) (clock : Nat → String)
    (fs0 : FS) (p f d : String) (h : resolvePath cwd p ∉ fs0.dirs) :
    (runMain noFailure cwd clock fs0 [p, f, d]).exitCode = 0 ∧
    resolvePath cwd p ∈ (runMain noFailure cwd clock fs0 [p, f, d]).fs.dirs ∧
    harnessDirOf (resolvePath cwd p) f ∈ (runMain noFailure cwd clock fs0 [p, f, d]).fs.dirs ∧
    ("📁 Created project directory: " ++ showPath (resolvePath cwd p)) ∈
      (runMain noFailure cwd clock fs0 [p, f, d]).output := by
  rw [runMain_noFailure_eq, if_neg h]
  refine ⟨by rw [runRest_noFailure], ?_, ?_, ?_⟩
  · rw [runRest_noFailure]
    simp only [FS.dirs_chmodFile, FS.dirs_writeFile]
    apply FS.mem_dirs_mkdirParents
    have hm := FS.self_mem_mkdirParents fs0 (resolvePath cwd p)
    rwa [resolvePath_norm] at hm
  · rw [runRest_noFailure]
    simp only [FS.dirs_chmodFile, FS.dirs_writeFile]
    exact FS.self_mem_mkdirParents _ _
  · rw [runRest_noFailure]
    simp

/-- Witness for missing_project_path_created at a concrete input. -/
theorem missing_project_path_created_witness :
    (runMain noFailure [] (fun _ => "T") FS.empty ["/proj", "feat", "desc"]).exitCode = 0 ∧
    resolvePath [] "/proj" ∈
      (runMain noFailure [] (fun _ => "T") FS.empty ["/proj", "feat", "desc"]).fs.dirs ∧
    harnessDirOf (resolvePath [] "/proj") "feat" ∈
      (runMain noFailure [] (fun _ => "T") FS.empty ["/proj", "feat", "desc"]).fs.dirs ∧
    ("📁 Created project directory: " ++ showPath (resolvePath [] "/proj")) ∈
      (runMain noFailure [] (fun _ => "T") FS.empty ["/proj", "feat", "desc"]).output :=
  missing_project_path_created [] (fun _ => "T") FS.empty "/proj" "feat" "desc"
    (by decide)

theorem runRest_exit_iff (env : FailModel) (clock : Nat → String) (fs : FS)
    (out : List String) (project : FsPath) (f d : String) :
    (runRest env clock fs out project f d).exitCode = 0 ↔
      env (FSOp.mkdirOp (harnessDirOf project f)) = false ∧
      env (FSOp.writeOp (featureListPath (harnessDirOf project f))) = false ∧
      env (FSOp.writeOp (progressPath (harnessDirOf project f))) = false ∧
      env (FSOp.writeOp (initShPath (harnessDirOf project f))) = false ∧
      env (FSOp.chmodOp (initShPath (harnessDirOf project f))) = false := by
  simp only [runRest]
  split_ifs with h1 h2 h3 h4 h5 <;> simp_all

/-- C2: the tool exits with status 0 on success and non-zero otherwise.
With fewer or more than three positional arguments it stops with argparse's
status 2 before any filesystem action (the filesystem and the output are
untouched); with three arguments it exits 0 exactly when every filesystem
action it attempts succeeds. -/
theorem cli_exit_status (env : FailModel) (cwd : FsPath) (clock : Nat → String)
    (fs0 : FS) (argv : List String) :
    (argv.length ≠ 3 →
      (runMain env cwd clock fs0 argv).exitCode = 2 ∧
      (runMain env cwd clock fs0 argv).fs = fs0 ∧
      (runMain env cwd clock fs0 argv).output = []) ∧
    (∀ p f d, argv = [p, f, d] →
      ((runMain env cwd clock fs0 argv).exitCode = 0 ↔
        (resolvePath cwd p ∈ fs0.dirs ∨
          env (FSOp.mkdirOp (resolvePath cwd p)) = false) ∧
        env (FSOp.mkdirOp (harnessDirOf (resolvePath cwd p) f)) = false ∧
        env (FSOp.writeOp (featureListPath (harnessDirOf (resolvePath cwd p) f))) = false ∧
        env (FSOp.writeOp (progressPath (harnessDirOf (resolvePath cwd p) f))) = false ∧
        env (FSOp.writeOp (initShPath (harnessDirOf (resolvePath cwd p) f))) = false ∧
        env (FSOp.chmodOp (initShPath (harnessDirOf (resolvePath cwd p) f))) = false)) := by
  constructor
  · intro hlen
    rcases argv with _ | ⟨a, _ | ⟨b, _ | ⟨c, _ | ⟨e, t⟩⟩⟩⟩
    · exact ⟨rfl, rfl, rfl⟩
    · exact ⟨rfl, rfl, rfl⟩
    · exact ⟨rfl, rfl, rfl⟩
    · simp at hlen
    · exact ⟨rfl, rfl, rfl⟩
  · rintro p f d rfl
    by_cases hp : resolvePath cwd p ∈ fs0.dirs
    · rw [show runMain env cwd clock fs0 [p, f, d] =
          runRest env clock fs0 [] (resolvePath cwd p) f d from by
        simp [runMain, hp]]
      rw [runRest_exit_iff]
      simp [hp]
    · by_cases hm : env (FSOp.mkdirOp (resolvePath cwd p)) = true
      · rw [show runMain env cwd clock fs0 [p, f, d] =
            { exitCode := 1, fs := fs0, output := [] } from by
          simp [runMain, hp, hm]]
        simp [hp, hm]
      · rw [show runMain env cwd clock fs0 [p, f, d] =
            runRest env clock (fs0.mkdirParents (resolvePath cwd p))
              ["📁 Created project directory: " ++ showPath (resolvePath cwd p)]
              (resolvePath cwd p) f d from by
          simp [runMain, hp, hm]]
        rw [runRest_exit_iff]
        simp [hp, hm]

/-- Witness for cli_exit_status: one invalid-argument run and one successful
run at concrete inputs. -/
theorem cli_exit_status_witness :
    ((runMain noFailure [] (fun _ => "T") FS.empty ["x"]).exitCode = 2 ∧
      (runMain noFailure [] (fun _ => "T") FS.empty ["x"]).fs = FS.empty ∧
      (runMain noFailure [] (fun _ => "T") FS.empty ["x"]).output = []) ∧
    (runMain noFailure [] (fun _ => "T") FS.empty ["proj", "feat", "desc"]).exitCode = 0 := by
  constructor
  · exact (cli_exit_status noFailure [] (fun _ => "T") FS.empty ["x"]).1 (by decide)
  · exact ((cli_exit_status noFailure [] (fun _ => "T") FS.empty
        ["proj", "feat", "desc"]).2 "proj" "feat" "desc" rfl).mpr
      ⟨Or.inr rfl, rfl, rfl, rfl, rfl, rfl⟩

/-- C4: re-running with the same arguments succeeds and unconditionally
overwrites all three files with the second run's rendering; if the clock
readings of the two runs agree, the three files after the second run are
identical to those after the first (idempotence up to timestamps). -/
theorem rerun_overwrites_idempotently (cwd : FsPath) (clock1 clock2 : Nat → String)
    (fs0 : FS) (p f d : String) :
    (runMain noFailure cwd clock1 fs0 [p, f, d]).exitCode = 0 ∧
    (runMain noFailure cwd clock2
        (runMain noFailure cwd clock1 fs0 [p, f, d]).fs [p, f, d]).exitCode = 0 ∧
    ((runMain noFailure cwd clock2
        (runMain noFailure cwd clock1 fs0 [p, f, d]).fs [p, f, d]).fs.getFile
        (featureListPath (harnessDirOf (resolvePath cwd p) f))).map FileData.content =
      some (FileContent.jsonFL
        (featureListValue (pathName (resolvePath cwd p)) d (clock2 0) (clock2 1))) ∧
    ((runMain noFailure cwd clock2
        (runMain noFailure cwd clock1 fs0 [p, f, d]).fs [p, f, d]).fs.getFile
        (progressPath (harnessDirOf (resolvePath cwd p) f))).map FileData.content =
      some (FileContent.text
        (progressContent (pathName (resolvePath cwd p)) d (clock2 2) (clock2 3))) ∧
    (runMain noFailure cwd clock2
        (runMain noFailure cwd clock1 fs0 [p, f, d]).fs [p, f, d]).fs.getFile
        (initShPath (harnessDirOf (resolvePath cwd p) f)) =
      some { content := FileContent.text initShContent, mode := 0o755 } ∧
    ((∀ k, k < 4 → clock1 k = clock2 k) →
      ((runMain noFailure cwd clock2
          (runMain noFailure cwd clock1 fs0 [p, f, d]).fs [p, f, d]).fs.getFile
          (featureListPath (harnessDirOf (resolvePath cwd p) f)) =
        (runMain noFailure cwd clock1 fs0 [p, f, d]).fs.getFile
          (featureListPath (harnessDirOf (resolvePath cwd p) f)) ∧
       (runMain noFailure cwd clock2
          (runMain noFailure cwd clock1 fs0 [p, f, d]).fs [p, f, d]).fs.getFile
          (progressPath (harnessDirOf (resolvePath cwd p) f)) =
        (runMain noFailure cwd clock1 fs0 [p, f, d]).fs.getFile
          (progressPath (harnessDirOf (resolvePath cwd p) f)) ∧
       (runMain noFailure cwd clock2
          (runMain noFailure cwd clock1 fs0 [p, f, d]).fs [p, f, d]).fs.getFile
          (initShPath (harnessDirOf (resolvePath cwd p) f)) =
        (runMain noFailure cwd clock1 fs0 [p, f, d]).fs.getFile
          (initShPath (harnessDirOf (resolvePath cwd p) f)))) := by
  have hfl1 := runMain_ok_fl cwd clock1 fs0 p f d
  have hpg1 := runMain_ok_pg cwd clock1 fs0 p f d
  have hsh1 := runMain_ok_sh cwd clock1 fs0 p f d
  have hfl2 := runMain_ok_fl cwd clock2 (runMain noFailure cwd clock1 fs0 [p, f, d]).fs p f d
  have hpg2 := runMain_ok_pg cwd clock2 (runMain noFailure cwd clock1 fs0 [p, f, d]).fs p f d
  have hsh2 := runMain_ok_sh cwd clock2 (runMain noFailure cwd clock1 fs0 [p, f, d]).fs p f d
  refine ⟨runMain_ok_exit cwd clock1 fs0 p f d,
    runMain_ok_exit cwd clock2 _ p f d, ?_, ?_, hsh2, ?_⟩
  · rw [hfl2]; simp
  · rw [hpg2]; simp
  · intro hck
    have h0 := hck 0 (by omega)
    have h1 := hck 1 (by omega)
    have h2 := hck 2 (by omega)
    have h3 := hck 3 (by omega)
    refine ⟨?_, ?_, ?_⟩
    · rw [hfl2, hfl1, h0, h1]
      simp
    · rw [hpg2, hpg1, h2, h3]
      simp
    · rw [hsh2, hsh1]

/-- Witness for rerun_overwrites_idempotently at a concrete input with equal
clocks. -/
theorem rerun_overwrites_idempotently_witness :
    (runMain noFailure [] (fun _ => "T")
        (runMain noFailure [] (fun _ => "T") FS.empty ["/proj", "feat", "desc"]).fs
        ["/proj", "feat", "desc"]).fs.getFile
        (featureListPath (harnessDirOf (resolvePath [] "/proj") "feat")) =
      (runMain noFailure [] (fun _ => "T") FS.empty ["/proj", "feat", "desc"]).fs.getFile
        (featureListPath (harnessDirOf (resolvePath [] "/proj") "feat")) :=
  ((rerun_overwrites_idempotently [] (fun _ => "T") (fun _ => "T") FS.empty
      "/proj" "feat" "desc").2.2.2.2.2 (fun _ _ => rfl)).1

theorem runMain_to_runRest (env : FailModel) (cwd : FsPath) (clock : Nat → String)
    (fs0 : FS) (p f d : String)
    (henv : ∀ x, env (FSOp.mkdirOp x) = false) :
    runMain env cwd clock fs0 [p, f, d] =
      if resolvePath cwd p ∈ fs0.dirs then
        runRest env clock fs0 [] (resolvePath cwd p) f d
      else
        runRest env clock (fs0.mkdirParents (resolvePath cwd p))
          ["📁 Created project directory: " ++ showPath (resolvePath cwd p)]
          (resolvePath cwd p) f d := by
  by_cases hp : resolvePath cwd p ∈ fs0.dirs <;> simp [runMain, hp, henv]

theorem runRest_failWrite_pg (clock : Nat → String) (fs : FS) (out : List String)
    (project : FsPath) (f d : String) :
    runRest (failWrite (progressPath (harnessDirOf project f))) clock fs out
        project f d =
      { exitCode := 1
        fs := (fs.mkdirParents (harnessDirLex project f)).writeFile
          (featureListPath (harnessDirOf project f))
          (FileContent.jsonFL
            (featureListValue (pathName project) d (clock 0) (clock 1)))
        output := out ++
          ["\n🔧 Initializing harness for: " ++ pathName project,
           "   Description: " ++ d ++ "\n",
           "✅ Created " ++ showPath (featureListPath (harnessDirOf project f))] } := by
  have e1 : failWrite (progressPath (harnessDirOf project f))
      (FSOp.writeOp (featureListPath (harnessDirOf project f))) = false := by
    simp only [failWrite, decide_eq_false_iff_not]
    exact featureListPath_ne_progressPath _
  have e2 : failWrite (progressPath (harnessDirOf project f))
      (FSOp.writeOp (progressPath (harnessDirOf project f))) = true := by
    simp [failWrite]
  have hne := featureListPath_ne_progressPath (harnessDirOf project f)
  simp [runRest, failWrite, e1, e2, hne]

theorem runRest_failWrite_sh (clock : Nat → String) (fs : FS) (out : List String)
    (project : FsPath) (f d : String) :
    runRest (failWrite (initShPath (harnessDirOf project f))) clock fs out
        project f d =
      { exitCode := 1
        fs := ((fs.mkdirParents (harnessDirLex project f)).writeFile
            (featureListPath (harnessDirOf project f))
            (FileContent.jsonFL
              (featureListValue (pathName project) d (clock 0) (clock 1)))).writeFile
          (progressPath (harnessDirOf project f))
          (FileContent.text
            (progressContent (pathName project) d (clock 2) (clock 3)))
        output := out ++
          ["\n🔧 Initializing harness for: " ++ pathName project,
           "   Description: " ++ d ++ "\n",
           "✅ Created " ++ showPath (featureListPath (harnessDirOf project f)),
           "✅ Created " ++ showPath (progressPath (harnessDirOf project f))] } := by
  have e1 : failWrite (initShPath (harnessDirOf project f))
      (FSOp.writeOp (featureListPath (harnessDirOf project f))) = false := by
    simp only [failWrite, decide_eq_false_iff_not]
    exact featureListPath_ne_initShPath _
  have e2 : failWrite (initShPath (harnessDirOf project f))
      (FSOp.writeOp (progressPath (harnessDirOf project f))) = false := by
    simp only [failWrite, decide_eq_false_iff_not]
    exact progressPath_ne_initShPath _
  have e3 : failWrite (initShPath (harnessDirOf project f))
      (FSOp.writeOp (initShPath (harnessDirOf project f))) = true := by
    simp [failWrite]
  have h1 := featureListPath_ne_initShPath (harnessDirOf project f)
  have h2 := progressPath_ne_initShPath (harnessDirOf project f)
  simp [runRest, failWrite, e1, e2, e3, h1, h2]

theorem runRest_failChmod_sh (clock : Nat → String) (fs : FS) (out : List String)
    (project : FsPath) (f d : String) :
    runRest (failChmod (initShPath (harnessDirOf project f))) clock fs out
        project f d =
      { exitCode := 1
        fs := (((fs.mkdirParents (harnessDirLex project f)).writeFile
            (featureListPath (harnessDirOf project f))
            (FileContent.jsonFL
              (featureListValue (pathName project) d (clock 0) (clock 1)))).writeFile
            (progressPath (harnessDirOf project f))
            (FileContent.text
              (progressContent (pathName project) d (clock 2) (clock 3)))).writeFile
          (initShPath (harnessDirOf project f)) (FileContent.text initShContent)
        output := out ++
          ["\n🔧 Initializing harness for: " ++ pathName project,
           "   Description: " ++ d ++ "\n",
           "✅ Created " ++ showPath (featureListPath (harnessDirOf project f)),
           "✅ Created " ++ showPath (progressPath (harnessDirOf project f))] } := by
  have e3 : failChmod (initShPath (harnessDirOf project f))
      (FSOp.chmodOp (initShPath (harnessDirOf project f))) = true := by
    simp [failChmod]
  simp [runRest, failChmod, e3]

/-- C5: whichever later step fails - the progress.txt write, the init.sh
write, or the chmod of init.sh - the run aborts right there with exit
status 1: every directory and file created earlier in the same run remains
on disk with its full content, files not yet written are exactly as they
were before the run (no retry, no rollback, no partial-state cleanup), and
nothing past the failure point is reported. -/
theorem abort_keeps_earlier_files (cwd : FsPath) (clock : Nat → String)
    (fs0 : FS) (p f d : String) :
    ((runMain (failWrite (progressPath (harnessDirOf (resolvePath cwd p) f)))
        cwd clock fs0 [p, f, d]).exitCode = 1 ∧
     (runMain (failWrite (progressPath (harnessDirOf (resolvePath cwd p) f)))
        cwd clock fs0 [p, f, d]).fs.getFile
        (featureListPath (harnessDirOf (resolvePath cwd p) f)) =
      some { content := FileContent.jsonFL
               (featureListValue (pathName (resolvePath cwd p)) d (clock 0) (clock 1))
             mode := ((fs0.getFile (featureListPath (harnessDirOf (resolvePath cwd p) f))).map
               FileData.mode).getD 0o644 } ∧
     (runMain (failWrite (progressPath (harnessDirOf (resolvePath cwd p) f)))
        cwd clock fs0 [p, f, d]).fs.getFile
        (progressPath (harnessDirOf (resolvePath cwd p) f)) =
      fs0.getFile (progressPath (harnessDirOf (resolvePath cwd p) f)) ∧
     (runMain (failWrite (progressPath (harnessDirOf (resolvePath cwd p) f)))
        cwd clock fs0 [p, f, d]).fs.getFile
        (initShPath (harnessDirOf (resolvePath cwd p) f)) =
      fs0.getFile (initShPath (harnessDirOf (resolvePath cwd p) f)) ∧
     resolvePath cwd p ∈ (runMain (failWrite (progressPath (harnessDirOf (resolvePath cwd p) f)))
        cwd clock fs0 [p, f, d]).fs.dirs ∧
     harnessDirOf (resolvePath cwd p) f ∈
      (runMain (failWrite (progressPath (harnessDirOf (resolvePath cwd p) f)))
        cwd clock fs0 [p, f, d]).fs.dirs ∧
     (runMain (failWrite (progressPath (harnessDirOf (resolvePath cwd p) f)))
        cwd clock fs0 [p, f, d]).output =
      (if resolvePath cwd p ∈ fs0.dirs then []
       else ["📁 Created project directory: " ++ showPath (resolvePath cwd p)]) ++
      ["\n🔧 Initializing harness for: " ++ pathName (resolvePath cwd p),
       "   Description: " ++ d ++ "\n",
       "✅ Created " ++ showPath (featureListPath (harnessDirOf (resolvePath cwd p) f))]) ∧
    ((runMain (failWrite (initShPath (harnessDirOf (resolvePath cwd p) f)))
        cwd clock fs0 [p, f, d]).exitCode = 1 ∧
     (runMain (failWrite (initShPath (harnessDirOf (resolvePath cwd p) f)))
        cwd clock fs0 [p, f, d]).fs.getFile
        (featureListPath (harnessDirOf (resolvePath cwd p) f)) =
      some { content := FileContent.jsonFL
               (featureListValue (pathName (resolvePath cwd p)) d (clock 0) (clock 1))
             mode := ((fs0.getFile (featureListPath (harnessDirOf (resolvePath cwd p) f))).map
               FileData.mode).getD 0o644 } ∧
     (runMain (failWrite (initShPath (harnessDirOf (resolvePath cwd p) f)))
        cwd clock fs0 [p, f, d]).fs.getFile
        (progressPath (harnessDirOf (resolvePath cwd p) f)) =
      some { content := FileContent.text
               (progressContent (pathName (resolvePath cwd p)) d (clock 2) (clock 3))
             mode := ((fs0.getFile (progressPath (harnessDirOf (resolvePath cwd p) f))).map
               FileData.mode).getD 0o644 } ∧
     (runMain (failWrite (initShPath (harnessDirOf (resolvePath cwd p) f)))
        cwd clock fs0 [p, f, d]).fs.getFile
        (initShPath (harnessDirOf (resolvePath cwd p) f)) =
      fs0.getFile (initShPath (harnessDirOf (resolvePath cwd p) f)) ∧
     resolvePath cwd p ∈ (runMain (failWrite (initShPath (harnessDirOf (resolvePath cwd p) f)))
        cwd clock fs0 [p, f, d]).fs.dirs ∧
     harnessDirOf (resolvePath cwd p) f ∈
      (runMain (failWrite (initShPath (harnessDirOf (resolvePath cwd p) f)))
        cwd clock fs0 [p, f, d]).fs.dirs ∧
     (runMain (failWrite (initShPath (harnessDirOf (resolvePath cwd p) f)))
        cwd clock fs0 [p, f, d]).output =
      (if resolvePath cwd p ∈ fs0.dirs then []
       else ["📁 Created project directory: " ++ showPath (resolvePath cwd p)]) ++
      ["\n🔧 Initializing harness for: " ++ pathName (resolvePath cwd p),
       "   Description: " ++ d ++ "\n",
       "✅ Created " ++ showPath (featureListPath (harnessDirOf (resolvePath cwd p) f)),
       "✅ Created " ++ showPath (progressPath (harnessDirOf (resolvePath cwd p) f))]) ∧
    ((runMain (failChmod (initShPath (harnessDirOf (resolvePath cwd p) f)))
        cwd clock fs0 [p, f, d]).exitCode = 1 ∧
     (runMain (failChmod (initShPath (harnessDirOf (resolvePath cwd p) f)))
        cwd clock fs0 [p, f, d]).fs.getFile
        (featureListPath (harnessDirOf (resolvePath cwd p) f)) =
      some { content := FileContent.jsonFL
               (featureListValue (pathName (resolvePath cwd p)) d (clock 0) (clock 1))
             mode := ((fs0.getFile (featureListPath (harnessDirOf (resolvePath cwd p) f))).map
               FileData.mode).getD 0o644 } ∧
     (runMain (failChmod (initShPath (harnessDirOf (resolvePath cwd p) f)))
        cwd clock fs0 [p, f, d]).fs.getFile
        (progressPath (harnessDirOf (resolvePath cwd p) f)) =
      some { content := FileContent.text
               (progressContent (pathName (resolvePath cwd p)) d (clock 2) (clock 3))
             mode := ((fs0.getFile (progressPath (harnessDirOf (resolvePath cwd p) f))).map
               FileData.mode).getD 0o644 } ∧
     (runMain (failChmod (initShPath (harnessDirOf (resolvePath cwd p) f)))
        cwd clock fs0 [p, f, d]).fs.getFile
        (initShPath (harnessDirOf (resolvePath cwd p) f)) =
      some { content := FileContent.text initShContent
             mode := ((fs0.getFile (initShPath (harnessDirOf (resolvePath cwd p) f))).map
               FileData.mode).getD 0o644 } ∧
     resolvePath cwd p ∈ (runMain (failChmod (initShPath (harnessDirOf (resolvePath cwd p) f)))
        cwd clock fs0 [p, f, d]).fs.dirs ∧
     harnessDirOf (resolvePath cwd p) f ∈
      (runMain (failChmod (initShPath (harnessDirOf (resolvePath cwd p) f)))
        cwd clock fs0 [p, f, d]).fs.dirs ∧
     (runMain (failChmod (initShPath (harnessDirOf (resolvePath cwd p) f)))
        cwd clock fs0 [p, f, d]).output =
      (if resolvePath cwd p ∈ fs0.dirs then []
       else ["📁 Created project directory: " ++ showPath (resolvePath cwd p)]) ++
      ["\n🔧 Initializing harness for: " ++ pathName (resolvePath cwd p),
       "   Description: " ++ d ++ "\n",
       "✅ Created " ++ showPath (featureListPath (harnessDirOf (resolvePath cwd p) f)),
       "✅ Created " ++ showPath (progressPath (harnessDirOf (resolvePath cwd p) f))]) := by
  have hAB := featureListPath_ne_progressPath (harnessDirOf (resolvePath cwd p) f)
  have hAC := featureListPath_ne_initShPath (harnessDirOf (resolvePath cwd p) f)
  have hBC := progressPath_ne_initShPath (harnessDirOf (resolvePath cwd p) f)
  have hBA := hAB.symm
  have hCA := hAC.symm
  have hCB := hBC.symm
  have hmm : resolvePath cwd p ∈ (fs0.mkdirParents (resolvePath cwd p)).dirs := by
    have hm := FS.self_mem_mkdirParents fs0 (resolvePath cwd p)
    rwa [resolvePath_norm] at hm
  refine ⟨?_, ?_, ?_⟩
  · by_cases hp : resolvePath cwd p ∈ fs0.dirs
    · rw [runMain_to_runRest (failWrite (progressPath (harnessDirOf (resolvePath cwd p) f)))
          cwd clock fs0 p f d (fun _ => rfl), if_pos hp, runRest_failWrite_pg]
      exact ⟨rfl,
        by simp [FS.getFile, FS.writeFile, FS.mkdirParents, hAB, hAC, hBC, hBA, hCA, hCB],
        by simp [FS.getFile, FS.writeFile, FS.mkdirParents, hAB, hAC, hBC, hBA, hCA, hCB],
        by simp [FS.getFile, FS.writeFile, FS.mkdirParents, hAB, hAC, hBC, hBA, hCA, hCB],
        FS.mem_dirs_mkdirParents _ _ hp,
        FS.self_mem_mkdirParents _ _,
        by rw [if_pos hp]⟩
    · rw [runMain_to_runRest (failWrite (progressPath (harnessDirOf (resolvePath cwd p) f)))
          cwd clock fs0 p f d (fun _ => rfl), if_neg hp, runRest_failWrite_pg]
      exact ⟨rfl,
        by simp [FS.getFile, FS.writeFile, FS.mkdirParents, hAB, hAC, hBC, hBA, hCA, hCB],
        by simp [FS.getFile, FS.writeFile, FS.mkdirParents, hAB, hAC, hBC, hBA, hCA, hCB],
        by simp [FS.getFile, FS.writeFile, FS.mkdirParents, hAB, hAC, hBC, hBA, hCA, hCB],
        FS.mem_dirs_mkdirParents _ _ hmm,
        FS.self_mem_mkdirParents _ _,
        by rw [if_neg hp]⟩
  · by_cases hp : resolvePath cwd p ∈ fs0.dirs
    · rw [runMain_to_runRest (failWrite (initShPath (harnessDirOf (resolvePath cwd p) f)))
          cwd clock fs0 p f d (fun _ => rfl), if_pos hp, runRest_failWrite_sh]
      exact ⟨rfl,
        by simp [FS.getFile, FS.writeFile, FS.mkdirParents, hAB, hAC, hBC, hBA, hCA, hCB],
        by simp [FS.getFile, FS.writeFile, FS.mkdirParents, hAB, hAC, hBC, hBA, hCA, hCB],
        by simp [FS.getFile, FS.writeFile, FS.mkdirParents, hAB, hAC, hBC, hBA, hCA, hCB],
        FS.mem_dirs_mkdirParents _ _ hp,
        FS.self_mem_mkdirParents _ _,
        by rw [if_pos hp]⟩
    · rw [runMain_to_runRest (failWrite (initShPath (harnessDirOf (resolvePath cwd p) f)))
          cwd clock fs0 p f d (fun _ => rfl), if_neg hp, runRest_failWrite_sh]
      exact ⟨rfl,
        by simp [FS.getFile, FS.writeFile, FS.mkdirParents, hAB, hAC, hBC, hBA, hCA, hCB],
        by simp [FS.getFile, FS.writeFile, FS.mkdirParents, hAB, hAC, hBC, hBA, hCA, hCB],
        by simp [FS.getFile, FS.writeFile, FS.mkdirParents, hAB, hAC, hBC, hBA, hCA, hCB],
        FS.mem_dirs_mkdirParents _ _ hmm,
        FS.self_mem_mkdirParents _ _,
        by rw [if_neg hp]⟩
  · by_cases hp : resolvePath cwd p ∈ fs0.dirs
    · rw [runMain_to_runRest (failChmod (initShPath (harnessDirOf (resolvePath cwd p) f)))
          cwd clock fs0 p f d (fun _ => rfl), if_pos hp, runRest_failChmod_sh]
      exact ⟨rfl,
        by simp [FS.getFile, FS.writeFile, FS.mkdirParents, hAB, hAC, hBC, hBA, hCA, hCB],
        by simp [FS.getFile, FS.writeFile, FS.mkdirParents, hAB, hAC, hBC, hBA, hCA, hCB],
        by simp [FS.getFile, FS.writeFile, FS.mkdirParents, hAB, hAC, hBC, hBA, hCA, hCB],
        FS.mem_dirs_mkdirParents _ _ hp,
        FS.self_mem_mkdirParents _ _,
        by rw [if_pos hp]⟩
    · rw [runMain_to_runRest (failChmod (initShPath (harnessDirOf (resolvePath cwd p) f)))
          cwd clock fs0 p f d (fun _ => rfl), if_neg hp, runRest_failChmod_sh]
      exact ⟨rfl,
        by simp [FS.getFile, FS.writeFile, FS.mkdirParents, hAB, hAC, hBC, hBA, hCA, hCB],
        by simp [FS.getFile, FS.writeFile, FS.mkdirParents, hAB, hAC, hBC, hBA, hCA, hCB],
        by simp [FS.getFile, FS.writeFile, FS.mkdirParents, hAB, hAC, hBC, hBA, hCA, hCB],
        FS.mem_dirs_mkdirParents _ _ hmm,
        FS.self_mem_mkdirParents _ _,
        by rw [if_neg hp]⟩

/-- C8 counterexample: with a clock that advances between the two
datetime.now() calls inside create_feature_list, the created and
last_updated fields of the generated feature_list.json differ, so the
timestamps echoed into the artifacts are not one shared creation
timestamp. -/
theorem timestamps_not_one_shared_cex :
    ∃ fl mode,
      (runMain noFailure [] (fun n => natStr n) FS.empty
          ["/proj", "feat", "desc"]).fs.getFile
          (featureListPath (harnessDirOf (resolvePath [] "/proj") "feat")) =
        some { content := FileContent.jsonFL fl, mode := mode } ∧
      fl.project.created ≠ fl.metadata.last_updated := by
  refine ⟨featureListValue "proj" "desc" "0" "1", 0o644, by decide, by decide⟩

/-- C8 (amended): each timestamp echoed into the generated files is sampled
by its own datetime.now() call, at ticks 0 to 3 in program order; whenever
the clock returns the same value at all four calls, every echoed timestamp
is that one shared value. -/
theorem timestamps_per_call_sampling (cwd : FsPath) (clock : Nat → String)
    (fs0 : FS) (p f d : String) (h1 : clock 1 = clock 0) (h2 : clock 2 = clock 0)
    (h3 : clock 3 = clock 0) :
    ((runMain noFailure cwd clock fs0 [p, f, d]).fs.getFile
        (featureListPath (harnessDirOf (resolvePath cwd p) f))).map FileData.content =
      some (FileContent.jsonFL
        (featureListValue (pathName (resolvePath cwd p)) d (clock 0) (clock 0))) ∧
    ((runMain noFailure cwd clock fs0 [p, f, d]).fs.getFile
        (progressPath (harnessDirOf (resolvePath cwd p) f))).map FileData.content =
      some (FileContent.text
        (progressContent (pathName (resolvePath cwd p)) d (clock 0) (clock 0))) := by
  constructor
  · rw [runMain_ok_fl]
    simp [h1]
  · rw [runMain_ok_pg]
    simp [h2, h3]

/-- Witness for timestamps_per_call_sampling with a constant clock at a
concrete input. -/
theorem timestamps_per_call_sampling_witness :
    ((runMain noFailure [] (fun _ => "T") FS.empty
        ["/proj", "feat", "desc"]).fs.getFile
        (featureListPath (harnessDirOf (resolvePath [] "/proj") "feat"))).map
        FileData.content =
      some (FileContent.jsonFL
        (featureListValue (pathName (resolvePath [] "/proj")) "desc" "T" "T")) ∧
    ((runMain noFailure [] (fun _ => "T") FS.empty
        ["/proj", "feat", "desc"]).fs.getFile
        (progressPath (harnessDirOf (resolvePath [] "/proj") "feat"))).map
        FileData.content =
      some (FileContent.text
        (progressContent (pathName (resolvePath [] "/proj")) "desc" "T" "T")) :=
  timestamps_per_call_sampling [] (fun _ => "T") FS.empty "/proj" "feat" "desc"
    rfl rfl rfl

/-- C9 counterexample: at a concrete input the generated progress.txt ends
with the fixed Notes for Future Sessions checklist, and that checklist has
six numbered steps, not five as claimed. -/
theorem notes_checklist_five_cex :
    (∃ pre, progressContent "p" "d" "t" "u" = pre ++ notesSection) ∧
    notesSection = notesIntro ++ numberedFrom 1 progressNotesSteps ++ "\n" ∧
    progressNotesSteps.length ≠ 5 :=
  ⟨⟨_, rfl⟩, by decide, by decide⟩

/-- C9 (amended): every generated progress.txt ends with the fixed Notes for
Future Sessions checklist, which numbers, in order, six steps: read this
log, check git history, review the feature list, run the init script,
implement one feature, and update the log before ending the session. -/
theorem notes_checklist_six_steps (n d t1 t2 : String) :
    (∃ pre, progressContent n d t1 t2 = pre ++ notesSection) ∧
    notesSection = notesIntro ++ numberedFrom 1 progressNotesSteps ++ "\n" ∧
    progressNotesSteps.length = 6 :=
  ⟨⟨_, rfl⟩, by decide, rfl⟩

theorem harnessDirOf_empty_feature (cwd : FsPath) (p : String) :
    harnessDirOf (resolvePath cwd p) "" = resolvePath cwd p ++ ["long_running"] := by
  have he : harnessDirOf (resolvePath cwd p) "" =
      normSegs ((resolvePath cwd p ++ ["long_running"]) ++ []) := rfl
  rw [he, List.append_nil, normSegs_append_single _ _ (by decide), resolvePath_norm]

/-- C10: feature_name is spliced into the harness path with no validation:
an empty feature_name puts the three files directly inside long_running
(shown for feature_list.json), and a feature_name with dot-dot components
places the harness directory outside long_running entirely. -/
theorem feature_name_unvalidated :
    (∀ (cwd : FsPath) (p : String),
      harnessDirOf (resolvePath cwd p) "" = resolvePath cwd p ++ ["long_running"]) ∧
    harnessDirOf (resolvePath [] "/home/user/proj") "../../etc" =
      ["home", "user", "etc"] ∧
    (∀ rest : List String,
      harnessDirOf (resolvePath [] "/home/user/proj") "../../etc" ≠
        (resolvePath [] "/home/user/proj" ++ ["long_running"]) ++ rest) ∧
    (∀ (cwd : FsPath) (clock : Nat → String) (fs0 : FS) (p d : String),
      ((runMain noFailure cwd clock fs0 [p, "", d]).fs.getFile
          (resolvePath cwd p ++ ["long_running", "feature_list.json"])).map
          FileData.content =
        some (FileContent.jsonFL
          (featureListValue (pathName (resolvePath cwd p)) d (clock 0) (clock 1)))) := by
  refine ⟨harnessDirOf_empty_feature, by decide, ?_, ?_⟩
  · intro rest h
    rw [show harnessDirOf (resolvePath [] "/home/user/proj") "../../etc" =
        ["home", "user", "etc"] from by decide] at h
    rw [show resolvePath [] "/home/user/proj" = ["home", "user", "proj"] from by
      decide] at h
    have hlen := congrArg List.length h
    simp only [List.length_append, List.length_cons, List.length_nil] at hlen
    omega
  · intro cwd clock fs0 p d
    have h := runMain_ok_fl cwd clock fs0 p "" d
    rw [harnessDirOf_empty_feature] at h
    rw [show featureListPath (resolvePath cwd p ++ ["long_running"]) =
        resolvePath cwd p ++ ["long_running", "feature_list.json"] from by
      simp [featureListPath]] at h
    rw [h]
    simp
